import Mathlib

/-!
Shallow embedding of the Query Gateway of `src/mysql_mcp_agent.py`.

Python strings are modelled as Lean `String` restricted to ASCII text:
`Char.isAlphanum` plays the role of Python `str.isalnum` / the regex
class `\w` (minus underscore), which agree on ASCII.  Python `None` and
SQL values are modelled by `PyVal`; a row (a Python dict from column
name to value) is an association list with unique keys in insertion
order.  The database and the connection pool are modelled by explicit
parameters: an executor function standing for `execute_query` bound to
the global pool, so "no database call is made" is expressed as the
result being the same for every executor.
-/

namespace MySQLAgent

/-- A Python value as it can appear in a result row: `None`, a string,
or an integer (all cells are rendered through `str`, modelled by
`pyStr`). -/
inductive PyVal where
  | vNone : PyVal
  | vStr : String → PyVal
  | vInt : Int → PyVal
deriving DecidableEq, Repr

/-- Python `str(v)` for the values we model: `str(None) = "None"`. -/
def pyStr : PyVal → String
  | PyVal.vNone => "None"
  | PyVal.vStr s => s
  | PyVal.vInt n => toString n

/-- A result row: Python dict from column name to value, as an
association list (keys unique, insertion order preserved). -/
abbrev Row := List (String × PyVal)

/-- Python `row.get(header, "")`: the stored value when the key is
present, the empty string when it is absent
(`src/mysql_mcp_agent.py:117,133`). -/
def rowGet (row : Row) (h : String) : PyVal :=
  match row.lookup h with
  | some v => v
  | none => PyVal.vStr ""

/-- `str(row.get(header, ""))`: the string a cell is rendered from. -/
def cellStr (row : Row) (h : String) : String :=
  pyStr (rowGet row h)

/-- Python `str.ljust(w)`: pad with spaces on the right to width `w`
(a no-op on strings already at least `w` long). -/
def ljust (s : String) (w : Nat) : String :=
  s ++ String.mk (List.replicate (w - s.length) ' ')

/-- Python `s[:w]`: keep the first `w` characters. -/
def truncStr (s : String) (w : Nat) : String :=
  String.mk (s.data.take w)

/-- `max(len(str(row.get(header, ""))) for row in display_results)`
(`src/mysql_mcp_agent.py:117`).  The Python `max` is over a nonempty
list on every reachable path; folding from `0` agrees with it there. -/
def maxValLen (display : List Row) (h : String) : Nat :=
  (display.map fun r => (cellStr r h).length).foldl max 0

/-- Column display width (`src/mysql_mcp_agent.py:115-120`):
`min(max(len(header), max cell length), 30)`. -/
def colWidth (display : List Row) (h : String) : Nat :=
  min (max h.length (maxValLen display h)) 30

/-- One rendered data cell
(`str(row.get(header, "")).ljust(w)[:w]`, `src/mysql_mcp_agent.py:133`). -/
def renderCell (row : Row) (h : String) (w : Nat) : String :=
  truncStr (ljust (cellStr row h) w) w

/-- The header line (`src/mysql_mcp_agent.py:126`): each header
left-justified to its column width — note: not sliced — joined by
`" | "`. -/
def headerRow (headers : List String) (display : List Row) : String :=
  String.intercalate " | " (headers.map fun h => ljust h (colWidth display h))

/-- One rendered data line (`src/mysql_mcp_agent.py:132-135`): each
cell left-justified then sliced to its column width, joined by
`" | "`. -/
def dataRow (headers : List String) (display : List Row) (row : Row) : String :=
  String.intercalate " | " (headers.map fun h => renderCell row h (colWidth display h))

/-- The dash separator line (`src/mysql_mcp_agent.py:128`). -/
def sepRow (headers : List String) (display : List Row) : String :=
  String.mk (List.replicate (headerRow headers display).length '-')

/-- The block of rendered data lines, one per displayed row, each
ended by a newline (`src/mysql_mcp_agent.py:131-136`). -/
def rowsBlock (headers : List String) (display : List Row) : String :=
  String.join (display.map fun r => dataRow headers display r ++ "\n")

/-- `format_query_results` (`src/mysql_mcp_agent.py:98-146`): empty
result list returns the status verbatim; otherwise at most the first
20 rows are rendered as a fixed-width table under the status, with a
"more rows" line when rows were cut and a final total line. -/
def format_query_results (results : List Row) (status : String) : String :=
  match results with
  | [] => status
  | r0 :: _ =>
    let display := results.take 20
    let headers := r0.map Prod.fst
    let more :=
      if results.length > display.length then
        "\n... and " ++ toString (results.length - display.length) ++ " more rows\n"
      else ""
    status ++ "\n\n" ++ headerRow headers display ++ "\n" ++ sepRow headers display ++ "\n"
      ++ rowsBlock headers display ++ more ++ "\nTotal rows: " ++ toString results.length

/-! ## Safety filter (`execute_sql_query`, `src/mysql_mcp_agent.py:159-166`) -/

/-- The fixed deny-list, in source order (`src/mysql_mcp_agent.py:160`). -/
def forbidden_keywords : List String :=
  ["DROP", "DELETE", "TRUNCATE", "ALTER", "CREATE", "INSERT", "UPDATE"]

/-- A regex word character (`\w` restricted to ASCII):
letter, digit or underscore. -/
def wordChar (c : Char) : Bool :=
  c.isAlphanum || c == '_'

/-- The keyword matches the query text starting at offset `i`,
case-insensitively (the keywords are all uppercase ASCII). -/
def occursAt (kw : List Char) (s : List Char) (i : Nat) : Bool :=
  ((s.drop i).take kw.length).map Char.toUpper == kw

/-- Both `\b` word boundaries hold around an occurrence of `kw` at
offset `i`: the character before (if any) and the character after
(if any) are not word characters. -/
def boundaryAt (kw : List Char) (s : List Char) (i : Nat) : Bool :=
  (i == 0 || !wordChar (s.getD (i - 1) ' '))
    && (i + kw.length == s.length || !wordChar (s.getD (i + kw.length) ' '))

/-- A whole-word occurrence at offset `i`. -/
def wholeWordAt (kw : List Char) (s : List Char) (i : Nat) : Bool :=
  occursAt kw s i && boundaryAt kw s i

/-- `re.search(rf"\b{kw}\b", q, re.IGNORECASE)` is not `None`
(`src/mysql_mcp_agent.py:165`): some offset carries a whole-word,
case-insensitive occurrence of the keyword. -/
def hasWholeWord (kw : String) (q : String) : Bool :=
  (List.range (q.data.length + 1)).any fun i => wholeWordAt kw.data q.data i

/-- The `for keyword in forbidden_keywords` loop
(`src/mysql_mcp_agent.py:163-166`): the first deny-listed keyword, in
list order, with a whole-word occurrence in the query. -/
def checkQuery (q : String) : Option String :=
  forbidden_keywords.find? fun kw => hasWholeWord kw q

/-- The rejection message (`src/mysql_mcp_agent.py:166`). -/
def rejectionMsg (kw : String) : String :=
  "❌ Query contains forbidden keyword '" ++ kw
    ++ "'. Only SELECT, SHOW, and DESCRIBE queries are allowed for safety."

/-- `execute_sql_query` (`src/mysql_mcp_agent.py:148-174`),
parametrised by the executor (`execute_query` bound to the live pool);
on a filter hit the rejection message is returned and the executor is
never consulted, otherwise the executor's result is formatted. -/
def execute_sql_query (q : String) (ex : String → List Row × String) : String :=
  match checkQuery q with
  | some kw => rejectionMsg kw
  | none => format_query_results (ex q).1 (ex q).2

/-! ## Query executor (`execute_query`, `src/mysql_mcp_agent.py:70-96`) -/

/-- Python whitespace stripped by `str.strip()` (ASCII). -/
def pyIsSpace (c : Char) : Bool :=
  c == ' ' || c == '\t' || c == '\n' || c == '\r' || c == '\x0b' || c == '\x0c'

/-- Python `str.strip()`. -/
def pyStrip (s : String) : String :=
  String.mk (((s.data.dropWhile pyIsSpace).reverse.dropWhile pyIsSpace).reverse)

/-- Python `str.upper()` (ASCII). -/
def pyUpper (s : String) : String :=
  String.mk (s.data.map Char.toUpper)

/-- `query.strip().upper().startswith(('SELECT', 'SHOW', 'DESCRIBE', 'DESC'))`
(`src/mysql_mcp_agent.py:85`). -/
def isReadQuery (q : String) : Bool :=
  ["SELECT", "SHOW", "DESCRIBE", "DESC"].any fun p => (pyUpper (pyStrip q)).startsWith p

/-- The status when no pool exists (`src/mysql_mcp_agent.py:75`). -/
def noConnMsg : String := "❌ No database connection available"

/-- The pool handle carries no observable data in this model. -/
def Pool : Type := Unit

/-- The database driver: on a statement it either raises (the `Except`
error, standing for any exception inside the `try` block) or yields
the fetched rows together with `cursor.rowcount`. -/
def DbDriver : Type := String → Except String (List Row × Int)

/-- `execute_query` (`src/mysql_mcp_agent.py:70-96`): no pool means an
immediate "no connection" result; a raised exception is absorbed into
an error status with empty rows; otherwise read-shaped statements
return their rows and anything else reports the affected-row count. -/
def execute_query (pool : Option Pool) (db : DbDriver) (query : String) :
    List Row × String :=
  match pool with
  | none => ([], noConnMsg)
  | some _ =>
    match db query with
    | Except.error e => ([], "❌ Error executing query: " ++ e)
    | Except.ok (results, rowcount) =>
      if isReadQuery query then
        (results, "✅ Query executed successfully")
      else
        ([], "✅ Query executed successfully. " ++ toString rowcount ++ " rows affected.")

/-! ## Identifier sanitisation and introspection operations
(`src/mysql_mcp_agent.py:177-243`) -/

/-- Python `str.isalnum()` on ASCII text: nonempty and every character
alphanumeric. -/
def pyIsAlnumStr (l : List Char) : Bool :=
  !l.isEmpty && l.all Char.isAlphanum

/-- `table_name.replace('_', '').replace('-', '').isalnum()`
(`src/mysql_mcp_agent.py:188,224`). -/
def sanitize_ok (name : String) : Bool :=
  pyIsAlnumStr ((name.data.filter fun c => c != '_').filter fun c => c != '-')

/-- The invalid-identifier message (`src/mysql_mcp_agent.py:189,225`). -/
def invalidNameMsg : String :=
  "❌ Invalid table name. Only alphanumeric characters, underscores, and hyphens are allowed."

/-- The characterisation the spec gives of the accepted identifier
alphabet: the ASCII class `[A-Za-z0-9_-]`. -/
def allowedIdentChar (c : Char) : Bool :=
  c.isAlphanum || c == '_' || c == '-'

/-- The `INFORMATION_SCHEMA.COLUMNS` query text built by
`describe_table` (`src/mysql_mcp_agent.py:192-196`). -/
def describeQuery (db_name table_name : String) : String :=
  "SELECT COLUMN_NAME, COLUMN_TYPE, IS_NULLABLE, COLUMN_KEY, COLUMN_DEFAULT, EXTRA, COLUMN_COMMENT "
    ++ "FROM INFORMATION_SCHEMA.COLUMNS "
    ++ "WHERE TABLE_SCHEMA = '" ++ db_name ++ "' AND TABLE_NAME = '" ++ table_name ++ "'"

/-- `describe_table` (`src/mysql_mcp_agent.py:177-198`), parametrised
by the configured database name and the executor. -/
def describe_table (table_name db_name : String)
    (ex : String → List Row × String) : String :=
  if !sanitize_ok table_name then invalidNameMsg
  else
    format_query_results (ex (describeQuery db_name table_name)).1
      (ex (describeQuery db_name table_name)).2

/-- The `DESCRIBE` statement built by `get_table_info`
(`src/mysql_mcp_agent.py:228`). -/
def tableDescQuery (table_name : String) : String :=
  "DESCRIBE `" ++ table_name ++ "`"

/-- The `COUNT(*)` statement built by `get_table_info`
(`src/mysql_mcp_agent.py:231`). -/
def tableCountQuery (table_name : String) : String :=
  "SELECT COUNT(*) as row_count FROM `" ++ table_name ++ "`"

/-- The header of the composite response (`src/mysql_mcp_agent.py:234`). -/
def tableInfoHeader (table_name : String) : String :=
  "📊 Table Information: " ++ table_name ++ "\n\n"

/-- Group a reversed digit list into blocks of three with commas. -/
def groupRev : List Char → List Char
  | a :: b :: c :: d :: rest => a :: b :: c :: ',' :: groupRev (d :: rest)
  | l => l

/-- Python `f"{n:,}"` on an integer: decimal with thousands commas. -/
def pyCommaInt (n : Int) : String :=
  (if n < 0 then "-" else "") ++ String.mk ((groupRev (toString n.natAbs).data.reverse).reverse)

/-- Python `f"{v:,}"` for a `PyVal`: defined for integers only — on
`None` or a string Python raises (`TypeError` / `ValueError`). -/
def pyCommaFmt : PyVal → Option String
  | PyVal.vInt n => some (pyCommaInt n)
  | _ => none

/-- `get_table_info` (`src/mysql_mcp_agent.py:213-243`), parametrised
by the executor.  `none` models an uncaught Python exception: the
source indexes `count_results[0]['row_count']` and applies the `:,`
format, which raises when the key is absent or the value is not a
number; every other path returns a string. -/
def get_table_info (table_name : String)
    (ex : String → List Row × String) : Option String :=
  if !sanitize_ok table_name then some invalidNameMsg
  else
    let descrRes := ex (tableDescQuery table_name)
    let countRes := ex (tableCountQuery table_name)
    let withCount : Option String :=
      match countRes.1 with
      | [] => some (tableInfoHeader table_name)
      | r :: _ =>
        match r.lookup "row_count" with
        | none => none
        | some v =>
          (pyCommaFmt v).map fun cs =>
            tableInfoHeader table_name ++ "Total Rows: " ++ cs ++ "\n\n"
    withCount.map fun resp =>
      resp ++ "Table Structure:\n"
        ++ format_query_results descrRes.1 descrRes.2

/-! ## Concrete inputs used by witnesses and counterexamples -/

/-- A driver that raises on every statement. -/
def failDb : DbDriver := fun _ => Except.error "boom"

/-- An executor whose every call reports no rows. -/
def emptyEx : String → List Row × String := fun _ => ([], "✅ Query executed successfully")

/-- A 35-character column header (longer than the 30-column clamp). -/
def c3hdr : String := String.mk (List.replicate 35 'a')

/-- A one-cell row under the long header `c3hdr`. -/
def c3row : Row := [(c3hdr, PyVal.vStr "x")]

/-- A row whose single cell is 50 characters long. -/
def c3rowLong : Row := [("h", PyVal.vStr (String.mk (List.replicate 50 'b')))]

/-- One sample row for the row-truncation claim. -/
def c5row : Row := [("id", PyVal.vStr "7")]

/-- 24 further rows: together with `c5row` a 25-row result. -/
def c5big : List Row := List.replicate 24 c5row

/-- 2 further rows: together with `c5row` a 3-row result. -/
def c5small : List Row := List.replicate 2 c5row

/-! ## Helper lemmas -/

/-- `List.find?` returns the head of the filtered list. -/
theorem find?_eq_filter_head? {α : Type} (p : α → Bool) (l : List α) :
    l.find? p = (l.filter p).head? := by
  induction l with
  | nil => rfl
  | cons a l ih =>
    cases h : p a
    · rw [List.find?_cons_of_neg _ (by simp [h]), List.filter_cons, if_neg (by simp [h]), ih]
    · rw [List.find?_cons_of_pos _ h, List.filter_cons, if_pos h, List.head?_cons]

/-- Any name containing a character outside `[A-Za-z0-9_-]` fails the
sanitiser: the character survives both `replace` steps and falsifies
`isalnum`. -/
theorem sanitize_ok_false_of_badChar {name : String} {c : Char}
    (hc : c ∈ name.data) (hbad : allowedIdentChar c = false) :
    sanitize_ok name = false := by
  simp only [allowedIdentChar, Bool.or_eq_false_iff] at hbad
  obtain ⟨⟨h1, h2⟩, h3⟩ := hbad
  have h2' : c ≠ '_' := by simpa using h2
  have h3' : c ≠ '-' := by simpa using h3
  have hmem : c ∈ (name.data.filter fun c => c != '_').filter fun c => c != '-' := by
    simp [List.mem_filter, hc, h2', h3']
  simp only [sanitize_ok, pyIsAlnumStr, Bool.and_eq_false_iff]
  right
  exact List.all_eq_false.mpr ⟨c, hmem, by simp [h1]⟩

/-- A name made only of underscores and hyphens (the empty name
included) fails the sanitiser: both `replace` steps leave the empty
string, and `''.isalnum()` is false. -/
theorem sanitize_ok_false_of_only_marks {name : String}
    (h : ∀ c ∈ name.data, c = '_' ∨ c = '-') :
    sanitize_ok name = false := by
  have hnil : ((name.data.filter fun c => c != '_').filter fun c => c != '-') = [] := by
    rw [List.filter_eq_nil_iff]
    intro c hcmem
    have hc1 := List.mem_filter.mp hcmem
    rcases h c hc1.1 with h' | h'
    · exact absurd hc1.2 (by simp [h'])
    · simp [h']
  simp [sanitize_ok, hnil, pyIsAlnumStr]

/-- Every member of a list of naturals is bounded by its `max`-fold,
and the fold dominates its seed. -/
theorem le_foldl_max : ∀ (l : List Nat) (a : Nat),
    (∀ x ∈ l, x ≤ l.foldl max a) ∧ a ≤ l.foldl max a := by
  intro l
  induction l with
  | nil => intro a; exact ⟨by simp, by simp⟩
  | cons b t ih =>
    intro a
    have h := ih (max a b)
    refine ⟨?_, ?_⟩
    · intro x hx
      rcases List.mem_cons.mp hx with rfl | hx'
      · exact le_trans (le_max_right a x) h.2
      · exact h.1 x hx'
    · exact le_trans (le_max_left a b) h.2

/-- `ljust` yields the longer of the string and the target width. -/
theorem ljust_length (s : String) (w : Nat) : (ljust s w).length = max s.length w := by
  simp only [ljust, String.length_append]
  have : (String.mk (List.replicate (w - s.length) ' ')).length = w - s.length := by
    show (List.replicate (w - s.length) ' ').length = w - s.length
    rw [List.length_replicate]
  rw [this]
  omega

/-- Slicing caps the length at the slice bound. -/
theorem truncStr_length (s : String) (w : Nat) : (truncStr s w).length = min s.length w := by
  show (s.data.take w).length = min s.length w
  rw [List.length_take]
  have : s.length = s.data.length := rfl
  omega

/-- `ljust` is the identity on strings already at least as long as the
target width. -/
theorem ljust_of_le (s : String) (w : Nat) (h : w ≤ s.length) : ljust s w = s := by
  rw [ljust, Nat.sub_eq_zero_of_le h]
  show s ++ "" = s
  exact String.append_empty s

/-! ## Theorems -/

/-- C7: formatting a result with no rows returns the status message
verbatim — no table, separator or total line is appended
(`src/mysql_mcp_agent.py:100-101`). -/
theorem format_empty_returns_status (status : String) :
    format_query_results [] status = status := rfl

/-- C4: the executor is a total error boundary.  When no pool exists
it returns empty rows with the "no connection available" status for
every driver (so nothing is executed), and when the driver raises the
exception is absorbed into empty rows plus an error status string —
in the model `execute_query` is a total function into row/status
pairs, so no exception ever reaches the caller
(`src/mysql_mcp_agent.py:70-96`). -/
theorem execute_query_error_boundary (db : DbDriver) (q : String) :
    execute_query none db q = ([], noConnMsg)
    ∧ (∀ (p : Pool) (e : String), db q = Except.error e →
        execute_query (some p) db q = ([], "❌ Error executing query: " ++ e)) := by
  refine ⟨rfl, ?_⟩
  intro p e he
  simp [execute_query, he]

/-- C4 witness: concrete runs on a closed pool and on a raising
driver. -/
theorem execute_query_error_boundary_witness :
    execute_query none failDb "SELECT 1" = ([], noConnMsg)
    ∧ execute_query (some ()) failDb "SELECT 1"
        = ([], "❌ Error executing query: " ++ "boom") :=
  ⟨(execute_query_error_boundary failDb "SELECT 1").1,
   (execute_query_error_boundary failDb "SELECT 1").2 () "boom" rfl⟩

/-- C2: a table name containing any character outside `[A-Za-z0-9_-]`
is rejected by both `describe_table` and `get_table_info` with the
fixed invalid-identifier message, for every executor — so no database
query is issued; and conversely the sanitiser accepts a name only if
every character lies in the class
(`src/mysql_mcp_agent.py:187-189,223-225`). -/
theorem sanitizer_rejects_disallowed_names :
    (∀ (name db_name : String) (ex : String → List Row × String),
        (∃ c ∈ name.data, allowedIdentChar c = false) →
        describe_table name db_name ex = invalidNameMsg
          ∧ get_table_info name ex = some invalidNameMsg)
    ∧ (∀ name : String, sanitize_ok name = true →
        ∀ c ∈ name.data, allowedIdentChar c = true) := by
  constructor
  · rintro name db_name ex ⟨c, hc, hbad⟩
    have hs := sanitize_ok_false_of_badChar hc hbad
    exact ⟨by simp [describe_table, hs], by simp [get_table_info, hs]⟩
  · intro name hs c hc
    by_contra h
    have hbad : allowedIdentChar c = false := by simpa using h
    have := sanitize_ok_false_of_badChar hc hbad
    simp [this] at hs

/-- C2 witness: `"a; DROP"` and `"tbl name"` are rejected by both
operations without consulting the executor, and the accepted name
`"a_b-c9"` indeed uses only allowed characters. -/
theorem sanitizer_rejects_disallowed_names_witness :
    ((∃ c ∈ ("a; DROP" : String).data, allowedIdentChar c = false)
      ∧ describe_table "a; DROP" "testdb" emptyEx = invalidNameMsg
      ∧ get_table_info "a; DROP" emptyEx = some invalidNameMsg)
    ∧ ((∃ c ∈ ("tbl name" : String).data, allowedIdentChar c = false)
      ∧ describe_table "tbl name" "testdb" emptyEx = invalidNameMsg
      ∧ get_table_info "tbl name" emptyEx = some invalidNameMsg)
    ∧ (sanitize_ok "a_b-c9" = true
      ∧ ∀ c ∈ ("a_b-c9" : String).data, allowedIdentChar c = true) :=
  ⟨⟨by decide, sanitizer_rejects_disallowed_names.1 "a; DROP" "testdb" emptyEx (by decide)⟩,
   ⟨by decide, sanitizer_rejects_disallowed_names.1 "tbl name" "testdb" emptyEx (by decide)⟩,
   by decide, sanitizer_rejects_disallowed_names.2 "a_b-c9" (by decide)⟩

/-- C8: a table name consisting only of underscores and hyphens — the
empty name included — is rejected by both operations, although each of
its characters lies in the allowed class: the two `replace` steps
leave the empty string and Python `''.isalnum()` is false
(`src/mysql_mcp_agent.py:188,224`). -/
theorem sanitizer_rejects_mark_only_names
    (name db_name : String) (ex : String → List Row × String)
    (h : ∀ c ∈ name.data, c = '_' ∨ c = '-') :
    describe_table name db_name ex = invalidNameMsg
      ∧ get_table_info name ex = some invalidNameMsg := by
  have hs := sanitize_ok_false_of_only_marks h
  exact ⟨by simp [describe_table, hs], by simp [get_table_info, hs]⟩

/-- C8 witness: the concrete names `"_-_"` and `""` are rejected by
both operations. -/
theorem sanitizer_rejects_mark_only_names_witness :
    ((∀ c ∈ ("_-_" : String).data, c = '_' ∨ c = '-')
      ∧ describe_table "_-_" "testdb" emptyEx = invalidNameMsg
      ∧ get_table_info "_-_" emptyEx = some invalidNameMsg)
    ∧ ((∀ c ∈ ("" : String).data, c = '_' ∨ c = '-')
      ∧ describe_table "" "testdb" emptyEx = invalidNameMsg
      ∧ get_table_info "" emptyEx = some invalidNameMsg) :=
  ⟨⟨by decide, sanitizer_rejects_mark_only_names "_-_" "testdb" emptyEx (by decide)⟩,
   ⟨by decide, sanitizer_rejects_mark_only_names "" "testdb" emptyEx (by decide)⟩⟩

/-- C1: when some deny-listed keyword has a whole-word,
case-insensitive occurrence in the query, `execute_sql_query` returns
the rejection message naming a keyword that is the first violated one
in the fixed list order (the head of the deny-list filtered by
violation), for every executor — so the query is never passed to the
executor and no database call is made
(`src/mysql_mcp_agent.py:159-166`). -/
theorem execute_sql_rejects_first_forbidden (q : String)
    (h : ∃ kw ∈ forbidden_keywords, hasWholeWord kw q = true) :
    ∃ kw, (forbidden_keywords.filter fun k => hasWholeWord k q).head? = some kw
      ∧ kw ∈ forbidden_keywords ∧ hasWholeWord kw q = true
      ∧ ∀ ex : String → List Row × String, execute_sql_query q ex = rejectionMsg kw := by
  obtain ⟨kw, hkw, hww⟩ := h
  have hfind : checkQuery q = (forbidden_keywords.filter fun k => hasWholeWord k q).head? :=
    find?_eq_filter_head? _ _
  cases hfil : forbidden_keywords.filter fun k => hasWholeWord k q with
  | nil =>
    have := List.filter_eq_nil_iff.mp hfil kw hkw
    simp [hww] at this
  | cons a l =>
    have hamem : a ∈ forbidden_keywords.filter fun k => hasWholeWord k q := by
      rw [hfil]; exact List.mem_cons_self a l
    have hsome : checkQuery q = some a := by rw [hfind, hfil, List.head?_cons]
    refine ⟨a, by rw [List.head?_cons], (List.mem_filter.mp hamem).1,
      (List.mem_filter.mp hamem).2, ?_⟩
    intro ex
    unfold execute_sql_query
    rw [hsome]

/-- C1 witness: `"drop table users"` violates `DROP` (lower case,
whole word) and is rejected naming `DROP`, the first violated keyword,
for the concrete executor as well. -/
theorem execute_sql_rejects_first_forbidden_witness :
    (∃ kw ∈ forbidden_keywords, hasWholeWord kw "drop table users" = true)
    ∧ ∃ kw, (forbidden_keywords.filter fun k => hasWholeWord k "drop table users").head?
          = some kw
        ∧ kw ∈ forbidden_keywords ∧ hasWholeWord kw "drop table users" = true
        ∧ ∀ ex : String → List Row × String,
            execute_sql_query "drop table users" ex = rejectionMsg kw :=
  ⟨by decide, execute_sql_rejects_first_forbidden "drop table users" (by decide)⟩

/-- C6: when every occurrence of every deny-listed keyword in the
query has a word character adjacent on at least one side (the keyword
appears only inside longer words such as `UPDATED_AT`), the filter does not
reject: `execute_sql_query` delegates the query to the executor and
formats its result (`src/mysql_mcp_agent.py:160-166,173-174`). -/
theorem filter_allows_embedded_keywords (q : String)
    (ex : String → List Row × String)
    (h : ∀ kw ∈ forbidden_keywords, ∀ i ∈ List.range (q.data.length + 1),
        occursAt kw.data q.data i = true → boundaryAt kw.data q.data i = false) :
    execute_sql_query q ex = format_query_results (ex q).1 (ex q).2 := by
  have hnone : checkQuery q = none := by
    apply List.find?_eq_none.mpr
    intro kw hkw
    simp only [Bool.not_eq_true, hasWholeWord, List.any_eq_false]
    intro i hi
    simp only [wholeWordAt, Bool.and_eq_false_iff]
    cases hocc : occursAt kw.data q.data i with
    | false => exact Or.inl rfl
    | true => exact Or.inr (h kw hkw i hi hocc)
  unfold execute_sql_query
  rw [hnone]

/-- C6 witness: `"SELECT UPDATED_AT FROM t"` contains `UPDATE` only
inside the longer identifier `UPDATED_AT`; the query reaches the
executor and its result is formatted. -/
theorem filter_allows_embedded_keywords_witness :
    (∀ kw ∈ forbidden_keywords,
        ∀ i ∈ List.range (("SELECT UPDATED_AT FROM t" : String).data.length + 1),
        occursAt kw.data ("SELECT UPDATED_AT FROM t" : String).data i = true →
          boundaryAt kw.data ("SELECT UPDATED_AT FROM t" : String).data i = false)
    ∧ execute_sql_query "SELECT UPDATED_AT FROM t" emptyEx
        = format_query_results (emptyEx "SELECT UPDATED_AT FROM t").1
            (emptyEx "SELECT UPDATED_AT FROM t").2 :=
  ⟨by decide, filter_allows_embedded_keywords "SELECT UPDATED_AT FROM t" emptyEx (by decide)⟩

/-- C9: a cell whose column key is mapped to `None` renders from the
four-character string `"None"` (then left-justified and sliced to the
column width), a cell whose column key is absent renders from the
empty string, and a `None` cell contributes length 4 to the
column-width computation of any display containing its row
(`src/mysql_mcp_agent.py:113-120,131-136`). -/
theorem none_and_missing_cells (row : Row) (h : String) (w : Nat) :
    (row.lookup h = some PyVal.vNone →
      cellStr row h = "None"
      ∧ (cellStr row h).length = 4
      ∧ renderCell row h w = truncStr (ljust "None" w) w
      ∧ ∀ display : List Row, row ∈ display → 4 ≤ maxValLen display h)
    ∧ (row.lookup h = none →
      cellStr row h = ""
      ∧ renderCell row h w = truncStr (ljust "" w) w) := by
  constructor
  · intro hl
    have hcell : cellStr row h = "None" := by simp [cellStr, rowGet, hl, pyStr]
    refine ⟨hcell, by rw [hcell]; rfl, by rw [renderCell, hcell], ?_⟩
    intro display hmem
    have h4 : (4 : Nat) ∈ display.map fun r => (cellStr r h).length :=
      List.mem_map.mpr ⟨row, hmem, by rw [hcell]; rfl⟩
    exact (le_foldl_max _ 0).1 4 h4
  · intro hl
    have hcell : cellStr row h = "" := by simp [cellStr, rowGet, hl, pyStr]
    exact ⟨hcell, by rw [renderCell, hcell]⟩

/-- C9 witness: in the row with `b` mapped to `None` and no key `c`,
the `b` cell renders from `"None"`, contributes width 4, and the `c`
cell renders from `""`. -/
theorem none_and_missing_cells_witness :
    ([("b", PyVal.vNone)] : Row).lookup "b" = some PyVal.vNone
    ∧ (cellStr [("b", PyVal.vNone)] "b" = "None"
      ∧ (cellStr [("b", PyVal.vNone)] "b").length = 4
      ∧ renderCell [("b", PyVal.vNone)] "b" 6 = truncStr (ljust "None" 6) 6
      ∧ ∀ display : List Row, [("b", PyVal.vNone)] ∈ display → 4 ≤ maxValLen display "b")
    ∧ ([("b", PyVal.vNone)] : Row).lookup "c" = none
    ∧ (cellStr [("b", PyVal.vNone)] "c" = ""
      ∧ renderCell [("b", PyVal.vNone)] "c" 6 = truncStr (ljust "" 6) 6) :=
  ⟨by decide,
   (none_and_missing_cells [("b", PyVal.vNone)] "b" 6).1 (by decide),
   by decide,
   (none_and_missing_cells [("b", PyVal.vNone)] "c" 6).2 (by decide)⟩

/-- C10: for every sanitised table name, whenever `get_table_info`
returns a string it begins with the table-information header naming
the table and ends with the formatted structure section; and when the
`COUNT(*)` query yields no rows (for example after an absorbed
executor error) the `Total Rows:` line is silently omitted while the
structure section is still included
(`src/mysql_mcp_agent.py:227-243`). -/
theorem get_table_info_shape (name : String)
    (ex : String → List Row × String) (hs : sanitize_ok name = true) :
    (∀ s, get_table_info name ex = some s →
        ∃ mid, s = tableInfoHeader name ++ mid
          ++ ("Table Structure:\n"
            ++ format_query_results (ex (tableDescQuery name)).1 (ex (tableDescQuery name)).2))
    ∧ ((ex (tableCountQuery name)).1 = [] →
        get_table_info name ex
          = some (tableInfoHeader name
            ++ ("Table Structure:\n"
              ++ format_query_results (ex (tableDescQuery name)).1
                (ex (tableDescQuery name)).2))) := by
  constructor
  · intro s hsome
    rw [get_table_info] at hsome
    simp only [hs, Bool.not_true, Bool.false_eq_true, if_false] at hsome
    cases hcnt : (ex (tableCountQuery name)).1 with
    | nil =>
      simp only [hcnt, Option.map, Option.some_inj] at hsome
      exact ⟨"", by rw [← hsome]; simp only [String.append_assoc, String.append_empty]⟩
    | cons r rest =>
      cases hlook : r.lookup "row_count" with
      | none => simp [hcnt, hlook] at hsome
      | some v =>
        cases v with
        | vNone => simp [hcnt, hlook, pyCommaFmt] at hsome
        | vStr t => simp [hcnt, hlook, pyCommaFmt] at hsome
        | vInt n =>
          simp only [hcnt, hlook, pyCommaFmt, Option.map, Option.some_inj] at hsome
          exact ⟨"Total Rows: " ++ pyCommaInt n ++ "\n\n",
            by rw [← hsome]; simp only [String.append_assoc]⟩
  · intro hcnt
    rw [get_table_info]
    simp only [hs, Bool.not_true, Bool.false_eq_true, if_false, hcnt, Option.map,
      Option.some_inj]
    simp only [String.append_assoc]

/-- C10 witness: for the sanitised name `"users"` and an executor that
reports no rows at all, the count section is omitted and the composite
response is exactly header plus structure section. -/
theorem get_table_info_shape_witness :
    sanitize_ok "users" = true
    ∧ (∀ s, get_table_info "users" emptyEx = some s →
        ∃ mid, s = tableInfoHeader "users" ++ mid
          ++ ("Table Structure:\n"
            ++ format_query_results (emptyEx (tableDescQuery "users")).1
              (emptyEx (tableDescQuery "users")).2))
    ∧ ((emptyEx (tableCountQuery "users")).1 = [] →
        get_table_info "users" emptyEx
          = some (tableInfoHeader "users"
            ++ ("Table Structure:\n"
              ++ format_query_results (emptyEx (tableDescQuery "users")).1
                (emptyEx (tableDescQuery "users")).2))) :=
  ⟨by decide, get_table_info_shape "users" emptyEx (by decide)⟩

/-- C5: a result with more than 20 rows renders exactly the first 20
rows (the displayed block is built from `take 20`, whose length is
exactly 20), followed by the `... and {T - 20} more rows` line and the
final `Total rows: {T}` line; a result with at most 20 rows renders
all its rows, has no more-rows line, and still ends with the true
total (`src/mysql_mcp_agent.py:103-146`). -/
theorem format_row_truncation (r0 : Row) (rest : List Row) (status : String) :
    ((r0 :: rest).length > 20 →
      ((r0 :: rest).take 20).length = 20
      ∧ format_query_results (r0 :: rest) status
        = status ++ "\n\n" ++ headerRow (r0.map Prod.fst) ((r0 :: rest).take 20) ++ "\n"
          ++ sepRow (r0.map Prod.fst) ((r0 :: rest).take 20) ++ "\n"
          ++ rowsBlock (r0.map Prod.fst) ((r0 :: rest).take 20)
          ++ ("\n... and " ++ toString ((r0 :: rest).length - 20) ++ " more rows\n")
          ++ "\nTotal rows: " ++ toString (r0 :: rest).length)
    ∧ ((r0 :: rest).length ≤ 20 →
      (r0 :: rest).take 20 = r0 :: rest
      ∧ format_query_results (r0 :: rest) status
        = status ++ "\n\n" ++ headerRow (r0.map Prod.fst) (r0 :: rest) ++ "\n"
          ++ sepRow (r0.map Prod.fst) (r0 :: rest) ++ "\n"
          ++ rowsBlock (r0.map Prod.fst) (r0 :: rest)
          ++ "\nTotal rows: " ++ toString (r0 :: rest).length) := by
  constructor
  · intro h
    have ht : ((r0 :: rest).take 20).length = 20 := by
      rw [List.length_take]; omega
    refine ⟨ht, ?_⟩
    simp only [format_query_results, ht]
    rw [if_pos (by omega : (r0 :: rest).length > 20)]
  · intro h
    have ht : (r0 :: rest).take 20 = r0 :: rest := List.take_of_length_le h
    refine ⟨ht, ?_⟩
    simp only [format_query_results, ht]
    rw [if_neg (by omega : ¬ (r0 :: rest).length > (r0 :: rest).length)]
    rw [String.append_empty]

/-- C5 witness: a 25-row result displays its first 20 rows plus the
`... and 5 more rows` and `Total rows: 25` lines; a 3-row result
displays all rows with no more-rows line and `Total rows: 3`. -/
theorem format_row_truncation_witness :
    ((c5row :: c5big).length > 20
      ∧ ((c5row :: c5big).take 20).length = 20
      ∧ format_query_results (c5row :: c5big) "ok"
        = "ok" ++ "\n\n" ++ headerRow (c5row.map Prod.fst) ((c5row :: c5big).take 20) ++ "\n"
          ++ sepRow (c5row.map Prod.fst) ((c5row :: c5big).take 20) ++ "\n"
          ++ rowsBlock (c5row.map Prod.fst) ((c5row :: c5big).take 20)
          ++ ("\n... and " ++ toString ((c5row :: c5big).length - 20) ++ " more rows\n")
          ++ "\nTotal rows: " ++ toString (c5row :: c5big).length)
    ∧ ((c5row :: c5small).length ≤ 20
      ∧ (c5row :: c5small).take 20 = c5row :: c5small
      ∧ format_query_results (c5row :: c5small) "ok"
        = "ok" ++ "\n\n" ++ headerRow (c5row.map Prod.fst) (c5row :: c5small) ++ "\n"
          ++ sepRow (c5row.map Prod.fst) (c5row :: c5small) ++ "\n"
          ++ rowsBlock (c5row.map Prod.fst) (c5row :: c5small)
          ++ "\nTotal rows: " ++ toString (c5row :: c5small).length) :=
  ⟨⟨by decide, (format_row_truncation c5row c5big "ok").1 (by decide)⟩,
   ⟨by decide, (format_row_truncation c5row c5small "ok").2 (by decide)⟩⟩

/-- C3 counterexample: with a 35-character header over a one-character
value, the column width is clamped to 30, but the rendered header line
is the full 35-character header — the header cell is not truncated to
the column width, refuting the claim that the header is "padded or
truncated to exactly that column width"
(`src/mysql_mcp_agent.py:126` has no slice, unlike line 133). -/
theorem format_header_not_truncated_cex :
    colWidth [c3row] c3hdr = 30
    ∧ c3hdr.length = 35
    ∧ headerRow [c3hdr] [c3row] = c3hdr
    ∧ format_query_results [c3row] "ok"
        = "ok\n\n" ++ c3hdr ++ "\n" ++ String.mk (List.replicate 35 '-') ++ "\n"
          ++ ("x" ++ String.mk (List.replicate 29 ' ') ++ "\n") ++ "\nTotal rows: 1"
    ∧ (headerRow [c3hdr] [c3row]).length ≠ colWidth [c3row] c3hdr := by
  decide

/-- C3 amended: every data cell is rendered at exactly the column
width `min(30, max(header length, longest displayed value length))`,
with values longer than the width truncated to it; the header cell is
padded to the column width but never truncated, so it is rendered at
exactly the column width whenever the header is at most 30 characters
long, while a longer header is rendered at its full length
(`src/mysql_mcp_agent.py:112-136`). -/
theorem cell_and_header_width_amended (display : List Row) (h : String) (row : Row)
    (hmem : row ∈ display) :
    colWidth display h = min (max h.length (maxValLen display h)) 30
    ∧ (renderCell row h (colWidth display h)).length = colWidth display h
    ∧ ((cellStr row h).length > colWidth display h →
        renderCell row h (colWidth display h)
          = truncStr (cellStr row h) (colWidth display h))
    ∧ (h.length ≤ 30 → (ljust h (colWidth display h)).length = colWidth display h)
    ∧ (30 < h.length → ljust h (colWidth display h) = h) := by
  have hw30 : colWidth display h ≤ 30 := by rw [colWidth]; omega
  refine ⟨rfl, ?_, ?_, ?_, ?_⟩
  · rw [renderCell, truncStr_length, ljust_length]; omega
  · intro hgt
    rw [renderCell, ljust_of_le _ _ (le_of_lt hgt)]
  · intro hle
    have hcw : h.length ≤ colWidth display h := by rw [colWidth]; omega
    rw [ljust_length]; omega
  · intro hgt
    exact ljust_of_le _ _ (le_trans hw30 (le_of_lt hgt))

/-- C3 witness: under the 35-character header the header cell keeps
its full length; a 50-character value renders as its first 30
characters, at exactly the column width, and its 1-character header is
padded to exactly that width. -/
theorem cell_and_header_width_amended_witness :
    (c3row ∈ [c3row]
      ∧ (renderCell c3row c3hdr (colWidth [c3row] c3hdr)).length = colWidth [c3row] c3hdr
      ∧ 30 < c3hdr.length
      ∧ ljust c3hdr (colWidth [c3row] c3hdr) = c3hdr)
    ∧ (c3rowLong ∈ [c3rowLong]
      ∧ (cellStr c3rowLong "h").length > colWidth [c3rowLong] "h"
      ∧ renderCell c3rowLong "h" (colWidth [c3rowLong] "h")
          = truncStr (cellStr c3rowLong "h") (colWidth [c3rowLong] "h")
      ∧ ("h" : String).length ≤ 30
      ∧ (ljust "h" (colWidth [c3rowLong] "h")).length = colWidth [c3rowLong] "h") :=
  ⟨⟨by decide,
    (cell_and_header_width_amended [c3row] c3hdr c3row (by decide)).2.1,
    by decide,
    (cell_and_header_width_amended [c3row] c3hdr c3row (by decide)).2.2.2.2 (by decide)⟩,
   ⟨by decide,
    by decide,
    (cell_and_header_width_amended [c3rowLong] "h" c3rowLong (by decide)).2.2.1 (by decide),
    by decide,
    (cell_and_header_width_amended [c3rowLong] "h" c3rowLong (by decide)).2.2.2.1 (by decide)⟩⟩

end MySQLAgent
